import Mathlib

/-!
Verification of `grapple-hook/src/devices/Device.tsx`: a shallow embedding of
the device dispatcher, config mutation gateway, and firmware-upgrade session,
with theorems settling the spec's claims about them.
-/

namespace GrappleHook

/-! ## Data model (`schema` types as used by `Device.tsx`) -/

/-- `DeviceType` as consumed by `renderDeviceType`: the well-known string tags
plus the vendor-named `{Grapple: string}` variant. -/
inductive DeviceType where
  | RoboRIO
  | Unknown
  | Grapple (name : String)
deriving DecidableEq

/-- `DeviceInfo` fields read by `Device.tsx`. Optional fields model the
possibly-`undefined` TS fields. -/
structure DeviceInfo where
  device_type : DeviceType
  device_id : Option Nat
  name : Option String
  serial : Option Nat
  firmware_version : Option String
  is_dfu : Bool
deriving DecidableEq

/-- The operations `Device.tsx` invokes through the `rpc` contract layer, with
their argument payloads. -/
inductive Invocation where
  | set_id (id : Int)
  | set_name (name : String)
  | blink
  | commit_to_eeprom
  | progress
  | get_firmware_url
  | do_field_upgrade (data : List Nat)
deriving DecidableEq

/-- A device-side responder: what the transport resolves for each issued
invocation — success, or a rejection carrying an error message. -/
def Responder := Invocation → Except String Unit

/-- Observable outcome of one gateway operation: the invocations issued to the
device, the errors reported to the operator via `addError` (the toast
collaborator), and promise rejections left without any `.catch` handler. -/
structure GatewayResult where
  invocations : List Invocation
  errors : List String
  unhandled : List String
deriving DecidableEq

/-! ## Device dispatcher (`FACTORIES`, `getFactory`, `DeviceComponent`) -/

/-- The handlers registered in the `FACTORIES` table, one per device class. -/
inductive Handler where
  | OldVersionDevice
  | FirmwareUpdate
  | LaserCan
  | Mitocandria
  | FlexiCan
deriving DecidableEq

/-- The static `FACTORIES` registration table from `Device.tsx`. -/
def FACTORIES : List (String × Handler) :=
  [("OldVersionDevice", Handler.OldVersionDevice),
   ("GrappleFirmwareUpgrade", Handler.FirmwareUpdate),
   ("LaserCAN", Handler.LaserCan),
   ("MitoCANdria", Handler.Mitocandria),
   ("FlexiCAN", Handler.FlexiCan)]

/-- The property keys every plain JS object literal inherits from
`Object.prototype`; property access finds these when no own key matches. -/
def objectPrototypeKeys : List String :=
  ["constructor", "hasOwnProperty", "isPrototypeOf", "propertyIsEnumerable",
   "toLocaleString", "toString", "valueOf", "__proto__",
   "__defineGetter__", "__defineSetter__", "__lookupGetter__",
   "__lookupSetter__"]

/-- Result of JS property access on the `FACTORIES` object literal: a value
under an own (registered) key, a value inherited from `Object.prototype`, or
`undefined`. -/
inductive JsLookup where
  | own (h : Handler)
  | inherited (key : String)
  | undef
deriving DecidableEq

/-- `getFactory`: JS property access `FACTORIES[device_class]`. An own key
yields the registered factory; otherwise the prototype chain is consulted,
so an `Object.prototype` property key yields that inherited (non-`undefined`)
member; only other keys yield `undefined`. -/
def getFactory (device_class : String) : JsLookup :=
  match FACTORIES.find? (fun p => p.1 == device_class) with
  | some p => JsLookup.own p.2
  | none =>
      if device_class ∈ objectPrototypeKeys then JsLookup.inherited device_class
      else JsLookup.undef

/-- `renderDeviceType`: the pure heading-label derivation. -/
def renderDeviceType : DeviceType → String
  | DeviceType.RoboRIO => "NI RoboRIO"
  | DeviceType.Unknown => "Unknown Device"
  | DeviceType.Grapple s => s

/-- `JSON.stringify` of a `DeviceType` value, as it appears in the `Bug`
fallback's `specifics` string. -/
def jsonStringifyDeviceType : DeviceType → String
  | DeviceType.RoboRIO => "\"RoboRIO\""
  | DeviceType.Unknown => "\"Unknown\""
  | DeviceType.Grapple s => "\x7b\"Grapple\":\"" ++ s ++ "\"\x7d"

/-- The body `DeviceComponent` renders below the heading: the dispatched
handler; or an inherited `Object.prototype` member that passed the
`factory !== undefined` guard and was called as a factory (throwing for a
non-function such as `__proto__`, or producing a non-element the renderer
rejects — in no case the diagnostic fallback); or the `Bug` diagnostic
fallback. -/
inductive DeviceBody where
  | handler (h : Handler)
  | brokenInherited (key : String)
  | bug (specifics : String)
deriving DecidableEq

/-- `DeviceComponent`'s dispatch: call the factory when the lookup is not
`undefined` — including an inherited `Object.prototype` hit — else render
`<Bug specifics=...>` with the raw type tag and class name. -/
def deviceComponentBody (info : DeviceInfo) (device_class : String) : DeviceBody :=
  match getFactory device_class with
  | JsLookup.own f => DeviceBody.handler f
  | JsLookup.inherited k => DeviceBody.brokenInherited k
  | JsLookup.undef => DeviceBody.bug
      ("Unknown Device Type: " ++ jsonStringifyDeviceType info.device_type
        ++ " (" ++ device_class ++ ")")

/-- The `<h3>` heading rendered by `DeviceComponent`: type label, optional
`#id`, the orange FIRMWARE UPDATE marker, and the optional `(name)` tag. -/
structure Heading where
  typeLabel : String
  busId : Option Nat
  dfuMarker : Bool
  nameTag : Option String
deriving DecidableEq

/-- The heading branch of `DeviceComponent`: the `is_dfu` branch shows the
FIRMWARE UPDATE marker and omits the name; the other branch shows the name. -/
def renderHeading (info : DeviceInfo) : Heading :=
  if info.is_dfu then
    { typeLabel := renderDeviceType info.device_type
      busId := info.device_id
      dfuMarker := true
      nameTag := none }
  else
    { typeLabel := renderDeviceType info.device_type
      busId := info.device_id
      dfuMarker := false
      nameTag := info.name }

/-- The label on the firmware-version line: the source ternary
`info.firmware_version != undefined && info.is_dfu ? Bootloader : Firmware`
(the `&&` binds tighter than `?:`). -/
def firmwareLabel (info : DeviceInfo) : String :=
  if info.firmware_version.isSome && info.is_dfu then "Bootloader" else "Firmware"

/-! ## Config mutation gateway (`GrappleDeviceHeaderComponent`) -/

/-- JS `x || 0` applied to the result of `Number(...)`: an unparsable input
(`NaN`, modelled `none`) and `0` both yield `0`; any other number passes
through. -/
def jsNumberOr0 : Option Int → Int
  | none => 0
  | some v => if v == 0 then 0 else v

/-- `changeId`: parse the confirmed input (`Number(...) || 0`), then issue
`set_id` with the resulting id; an invocation failure is reported via
`addError`. `input` is the `Number(...)` parse of the confirmed string
(`none` = `NaN`). -/
def changeId (input : Option Int) (respond : Responder) : GatewayResult :=
  let newId := jsNumberOr0 input
  match respond (Invocation.set_id newId) with
  | Except.ok _ => ⟨[Invocation.set_id newId], [], []⟩
  | Except.error e => ⟨[Invocation.set_id newId], [e], []⟩

/-- The `min` attribute of the Change-ID numeric input. -/
def idInputMin : Int := 0

/-- The `max` attribute of the Change-ID numeric input: `0x3F - 1`. -/
def idInputMax : Int := 0x3F - 1

/-- Whether a candidate id satisfies the numeric input's declared
`min`/`max` range constraint. -/
def idInputAllowed (n : Int) : Bool :=
  decide (idInputMin ≤ n) && decide (n ≤ idInputMax)

/-- `changeName`: validate `length ≤ 16` before any invocation; on violation
report "Name is too long!" and contact nothing; otherwise issue `set_name`
once, reporting an invocation failure via `addError`. -/
def changeName (newName : String) (respond : Responder) : GatewayResult :=
  if newName.length > 16 then
    ⟨[], ["Name is too long!"], []⟩
  else
    match respond (Invocation.set_name newName) with
    | Except.ok _ => ⟨[Invocation.set_name newName], [], []⟩
    | Except.error e => ⟨[Invocation.set_name newName], [e], []⟩

/-- The Blink button's `onClick`: one `blink` invocation with no `.catch`
handler — a rejection is left unhandled, not reported. -/
def blinkAction (respond : Responder) : GatewayResult :=
  match respond Invocation.blink with
  | Except.ok _ => ⟨[Invocation.blink], [], []⟩
  | Except.error e => ⟨[Invocation.blink], [], [e]⟩

/-- The Commit Configuration button's `onClick`: one `commit_to_eeprom`
invocation with no `.catch` handler — a rejection is left unhandled. -/
def commitToEepromAction (respond : Responder) : GatewayResult :=
  match respond Invocation.commit_to_eeprom with
  | Except.ok _ => ⟨[Invocation.commit_to_eeprom], [], []⟩
  | Except.error e => ⟨[Invocation.commit_to_eeprom], [], [e]⟩

/-! ## Firmware upgrade session (`FirmwareUpdateComponent`) -/

/-- `uploadFirmware`: the `FileReader` reads the selected file fully into
memory (`readAsArrayBuffer`, `loadend`), then one `do_field_upgrade`
invocation carries exactly those bytes; a failure is reported via
`addError`. -/
def uploadFirmware (file : List Nat) (respond : Responder) : GatewayResult :=
  match respond (Invocation.do_field_upgrade file) with
  | Except.ok _ => ⟨[Invocation.do_field_upgrade file], [], []⟩
  | Except.error e => ⟨[Invocation.do_field_upgrade file], [e], []⟩

/-- The `setInterval` cadence of the progress poll, in milliseconds. -/
def pollCadenceMs : Nat := 250

/-- The session's React state: `progress` and `firmwareURL` from `useState`,
plus `active`, whether the interval is still installed (cleared by the
`useEffect` cleanup). -/
structure SessionState where
  progress : Option Int
  firmwareURL : Option String
  active : Bool
deriving DecidableEq

/-- Resolution of one `progress` poll: the device answers with a number, or
the transport rejects. -/
inductive PollResult where
  | ok (v : Int)
  | failed (msg : String)
deriving DecidableEq

/-- Events of a session run: a poll-interval firing together with its
resolution, the resolution of the one-shot `get_firmware_url` call, and the
teardown (the `useEffect` cleanup running `clearInterval`). -/
inductive SessionEvent where
  | tick (r : PollResult)
  | urlResolved (r : Except String (Option String))
  | teardown

/-- One step of the session. A tick on an active session issues a `progress`
invocation; success stores the value (`setProgress`), failure is discarded
(`catch (e) => \x7b\x7d`): no state change, no report. A cleared interval
never fires, so an inactive tick issues nothing. Teardown clears the
interval unconditionally. -/
def pollStep (s : SessionState) : SessionEvent → SessionState × List Invocation × List String
  | SessionEvent.tick r =>
      if s.active then
        match r with
        | PollResult.ok v => ({ s with progress := some v }, [Invocation.progress], [])
        | PollResult.failed _ => (s, [Invocation.progress], [])
      else (s, [], [])
  | SessionEvent.urlResolved r =>
      if s.active then
        match r with
        | Except.ok u => ({ s with firmwareURL := u }, [], [])
        | Except.error _ => (s, [], [])
      else (s, [], [])
  | SessionEvent.teardown => ({ s with active := false }, [], [])

/-- Accumulated observables of a session run. -/
structure TraceOut where
  final : SessionState
  sent : List Invocation
  reported : List String
deriving DecidableEq

/-- Run a list of session events from a state, accumulating the issued
invocations and operator-reported errors. -/
def runTrace (s : SessionState) : List SessionEvent → TraceOut
  | [] => ⟨s, [], []⟩
  | e :: es =>
      let step := pollStep s e
      let rest := runTrace step.1 es
      ⟨rest.final, step.2.1 ++ rest.sent, step.2.2 ++ rest.reported⟩

/-- What the session renders: the progress bar when shown, the advisory
download link row when shown, and whether the upload control is present. -/
structure FirmwareDisplay where
  progressBar : Option Int
  downloadLink : Option String
  uploadControl : Bool
deriving DecidableEq

/-- JS truthiness of the `progress` state (`number | null`): `null` and `0`
are falsy. -/
def jsTruthyNum : Option Int → Bool
  | none => false
  | some v => !(v == 0)

/-- JS truthiness of the `firmwareURL` state (`string | null`): `null` and
the empty string are falsy. -/
def jsTruthyStr : Option String → Bool
  | none => false
  | some s => !(s == "")

/-- The render of `FirmwareUpdateComponent`: `progress ? <ProgressBar> :
(firmwareURL && <link row>) + <upload control>`. -/
def renderFirmwareUpdate (progress : Option Int) (firmwareURL : Option String) :
    FirmwareDisplay :=
  if jsTruthyNum progress then
    { progressBar := progress, downloadLink := none, uploadControl := false }
  else
    { progressBar := none
      downloadLink := if jsTruthyStr firmwareURL then firmwareURL else none
      uploadControl := true }

/-- The display state a session state produces. -/
def displayOf (s : SessionState) : FirmwareDisplay :=
  renderFirmwareUpdate s.progress s.firmwareURL

/-- A responder that rejects every invocation, for concrete counterexamples. -/
def failingRespond : Responder := fun _ => Except.error "device unreachable"

/-! ## Trace lemmas -/

/-- Running a concatenation of event lists composes the runs. -/
theorem runTrace_append (a b : List SessionEvent) :
    ∀ s : SessionState,
      runTrace s (a ++ b) =
        ⟨(runTrace (runTrace s a).final b).final,
         (runTrace s a).sent ++ (runTrace (runTrace s a).final b).sent,
         (runTrace s a).reported ++ (runTrace (runTrace s a).final b).reported⟩ := by
  induction a with
  | nil => intro s; simp [runTrace]
  | cons e a ih => intro s; simp [runTrace, ih]

/-- An inactive session (interval cleared) issues nothing, reports nothing,
and stays put. -/
theorem runTrace_inactive (es : List SessionEvent) :
    ∀ s : SessionState, s.active = false → runTrace s es = ⟨s, [], []⟩ := by
  induction es with
  | nil => intro s _; rfl
  | cons e es ih =>
      intro s h
      have hstep : pollStep s e = (s, [], []) := by
        cases e with
        | tick r => simp [pollStep, h]
        | urlResolved r => simp [pollStep, h]
        | teardown => cases s with | mk p u a => simp_all [pollStep]
      simp [runTrace, hstep, ih s h]

/-- An active session fed only failed polls is left exactly where it started:
one `progress` invocation per tick, no report, no state change. -/
theorem runTrace_all_failed (es : List SessionEvent) :
    ∀ s : SessionState, s.active = true →
      (∀ e ∈ es, ∃ msg, e = SessionEvent.tick (PollResult.failed msg)) →
      runTrace s es = ⟨s, List.replicate es.length Invocation.progress, []⟩ := by
  induction es with
  | nil => intro s _ _; rfl
  | cons e es ih =>
      intro s hs hf
      obtain ⟨msg, rfl⟩ := hf e (by simp)
      have hstep : pollStep s (SessionEvent.tick (PollResult.failed msg)) =
          (s, [Invocation.progress], []) := by
        simp [pollStep, hs]
      have hrest := ih s hs (fun e he => hf e (by simp [he]))
      simp [runTrace, hstep, hrest, List.replicate_succ]

/-! ## Claims -/

/-- C1: for every run of the firmware-upgrade session and every N ≥ 1, after
each of N consecutive failed `progress` polls the stored progress value, the
whole session state and the resulting display state are exactly what they
were before, no operator-visible error is reported, and the poll timer keeps
firing: every tick still issued its `progress` invocation and the interval is
still active afterward. -/
theorem poll_failures_preserve_state (s : SessionState) (es : List SessionEvent)
    (hs : s.active = true) (_hne : es ≠ [])
    (hf : ∀ e ∈ es, ∃ msg, e = SessionEvent.tick (PollResult.failed msg)) :
    (∀ n : Nat, (runTrace s (es.take n)).final = s) ∧
    (runTrace s es).reported = [] ∧
    (runTrace s es).sent = List.replicate es.length Invocation.progress ∧
    (runTrace s es).final.active = true ∧
    (∀ n : Nat, displayOf (runTrace s (es.take n)).final = displayOf s) := by
  have htake : ∀ n : Nat, runTrace s (es.take n) =
      ⟨s, List.replicate (es.take n).length Invocation.progress, []⟩ :=
    fun n => runTrace_all_failed (es.take n) s hs
      (fun e he => hf e (List.take_subset n es he))
  have hall := runTrace_all_failed es s hs hf
  exact ⟨fun n => by rw [htake n], by rw [hall], by rw [hall],
    by rw [hall]; exact hs, fun n => by rw [htake n]⟩

/-- C1 witness: a fresh active session hit by two consecutive poll failures. -/
theorem poll_failures_preserve_state_witness :
    (runTrace ⟨none, none, true⟩
      [SessionEvent.tick (PollResult.failed "a"),
       SessionEvent.tick (PollResult.failed "b")]).reported = [] ∧
    (runTrace ⟨none, none, true⟩
      [SessionEvent.tick (PollResult.failed "a"),
       SessionEvent.tick (PollResult.failed "b")]).sent =
        List.replicate 2 Invocation.progress ∧
    (runTrace ⟨none, none, true⟩
      ([SessionEvent.tick (PollResult.failed "a"),
        SessionEvent.tick (PollResult.failed "b")].take 1)).final =
      ⟨none, none, true⟩ := by
  have h := poll_failures_preserve_state ⟨none, none, true⟩
    [SessionEvent.tick (PollResult.failed "a"),
     SessionEvent.tick (PollResult.failed "b")]
    rfl (List.cons_ne_nil _ _)
    (by
      intro e he
      simp at he
      rcases he with h | h
      · exact ⟨"a", h⟩
      · exact ⟨"b", h⟩)
  exact ⟨h.2.1, h.2.2.1, h.1 1⟩

/-- C6: once the session's teardown event has run (the `useEffect` cleanup
calling `clearInterval`, on every exit path), no further invocation — in
particular no `progress` poll, even one scheduled to fire right after — is
issued: events after the teardown contribute nothing to the sent list. -/
theorem teardown_cancels_poll (s : SessionState) (pre post : List SessionEvent) :
    (runTrace (runTrace s (pre ++ [SessionEvent.teardown])).final post).sent = [] ∧
    (runTrace s (pre ++ SessionEvent.teardown :: post)).sent =
      (runTrace s (pre ++ [SessionEvent.teardown])).sent := by
  have hfin : (runTrace s (pre ++ [SessionEvent.teardown])).final.active = false := by
    rw [runTrace_append]
    simp [runTrace, pollStep]
  have hpost := runTrace_inactive post _ hfin
  constructor
  · rw [hpost]
  · have hsplit : pre ++ SessionEvent.teardown :: post =
        (pre ++ [SessionEvent.teardown]) ++ post := by simp
    rw [hsplit, runTrace_append, hpost]
    simp

/-- C2: `changeName` on a candidate longer than 16 characters reports the
client-side validation error and contacts the device with no invocation at
all; on a candidate of length at most 16 it issues exactly one `set_name`
invocation carrying that name, whatever the device answers. -/
theorem changeName_validates (name : String) (respond : Responder) :
    (16 < name.length →
      (changeName name respond).invocations = [] ∧
      (changeName name respond).errors = ["Name is too long!"]) ∧
    (name.length ≤ 16 →
      (changeName name respond).invocations = [Invocation.set_name name]) := by
  constructor
  · intro h
    simp [changeName, h]
  · intro h
    have h' : ¬ 16 < name.length := by omega
    cases hr : respond (Invocation.set_name name) <;> simp [changeName, h', hr]

/-- C2 witness: the 25-character candidate is rejected without contact; a
3-character candidate yields the single `set_name` invocation. -/
theorem changeName_validates_witness :
    (changeName "ThisNameIsWayTooLongToFit" failingRespond).invocations = [] ∧
    (changeName "abc" failingRespond).invocations = [Invocation.set_name "abc"] :=
  ⟨((changeName_validates "ThisNameIsWayTooLongToFit" failingRespond).1
      (by decide)).1,
   (changeName_validates "abc" failingRespond).2 (by decide)⟩

/-- C3 counterexample: the Change-ID input's declared range (`min=0`,
`max=0x3F - 1`) accepts the candidate id 62, so the claim that 62 is
rejected is false on the code. -/
theorem idInput_accepts_62 : idInputAllowed 62 = true := by decide

/-- C3 (amended): the change-id input surface is range-constrained to
[0, 62]: the boundary values 0, 61 and 62 are accepted, while 63 and -1 are
rejected; in general a candidate is allowed exactly when 0 ≤ n ≤ 62. -/
theorem idInput_range (n : Int) :
    idInputAllowed 0 = true ∧ idInputAllowed 61 = true ∧
    idInputAllowed 62 = true ∧ idInputAllowed 63 = false ∧
    idInputAllowed (-1) = false ∧
    (idInputAllowed n = true ↔ 0 ≤ n ∧ n ≤ 62) := by
  refine ⟨by decide, by decide, by decide, by decide, by decide, ?_⟩
  simp only [idInputAllowed, idInputMin, idInputMax, Bool.and_eq_true,
    decide_eq_true_eq]
  omega

/-- C4: on an unparsable numeric id (JS `Number` yields `NaN`, modelled
`none`), `changeId` substitutes 0 via `Number(...) || 0` and still issues the
`set_id` invocation, with id 0, instead of rejecting or re-prompting. -/
theorem changeId_unparsable_substitutes_zero (respond : Responder) :
    (changeId none respond).invocations = [Invocation.set_id 0] ∧
    jsNumberOr0 none = 0 := by
  cases hr : respond (Invocation.set_id 0) <;> simp [changeId, jsNumberOr0, hr]

/-- C5: each operator file selection issues exactly one `do_field_upgrade`
invocation, whose payload is exactly the byte sequence of the selected file,
whatever the device answers. -/
theorem uploadFirmware_exactly_once (file : List Nat) (respond : Responder) :
    (uploadFirmware file respond).invocations = [Invocation.do_field_upgrade file] := by
  cases hr : respond (Invocation.do_field_upgrade file) <;> simp [uploadFirmware, hr]

/-- C7 counterexample: "constructor" is registered nowhere in `FACTORIES`,
yet dispatch does not produce the `Bug` diagnostic fallback for it: the JS
lookup finds the inherited `Object.prototype.constructor`, which passes the
`factory !== undefined` guard and is called as a factory — a path that does
not render the fallback and can throw. -/
theorem dispatch_prototype_cex :
    FACTORIES.find? (fun p => p.1 == "constructor") = none ∧
    deviceComponentBody ⟨DeviceType.Unknown, none, none, none, none, false⟩
        "constructor" = DeviceBody.brokenInherited "constructor" ∧
    deviceComponentBody ⟨DeviceType.Unknown, none, none, none, none, false⟩
        "constructor" ≠
      DeviceBody.bug "Unknown Device Type: \"Unknown\" (constructor)" :=
  ⟨rfl, rfl, by decide⟩

/-- C7 (amended): for a class name registered in `FACTORIES`, dispatch
renders exactly the registered handler (exact string lookup). For an
unregistered class name that is not an `Object.prototype` property key,
dispatch renders the `Bug` diagnostic fallback carrying the raw device type
tag and the class name, without throwing. For an unregistered name that is an
`Object.prototype` property key (such as "constructor", "toString" or
"__proto__"), the lookup yields the inherited member, which passes the
`factory !== undefined` guard: the diagnostic fallback is not rendered and
the call path may throw. -/
theorem dispatch_exact_or_fallback (info : DeviceInfo) (c : String) :
    (∀ h : Handler, (c, h) ∈ FACTORIES →
      deviceComponentBody info c = DeviceBody.handler h) ∧
    ((∀ h : Handler, (c, h) ∉ FACTORIES) → c ∉ objectPrototypeKeys →
      deviceComponentBody info c =
        DeviceBody.bug ("Unknown Device Type: "
          ++ jsonStringifyDeviceType info.device_type ++ " (" ++ c ++ ")")) ∧
    ((∀ h : Handler, (c, h) ∉ FACTORIES) → c ∈ objectPrototypeKeys →
      deviceComponentBody info c = DeviceBody.brokenInherited c) := by
  have hfind : (∀ h : Handler, (c, h) ∉ FACTORIES) →
      FACTORIES.find? (fun p => p.1 == c) = none := by
    intro hnone
    rw [List.find?_eq_none]
    intro p hp hbeq
    obtain ⟨a, b⟩ := p
    simp only [beq_iff_eq] at hbeq
    subst hbeq
    exact hnone b hp
  refine ⟨?_, ?_, ?_⟩
  · intro h hm
    simp only [FACTORIES, List.mem_cons, List.not_mem_nil, or_false,
      Prod.mk.injEq] at hm
    rcases hm with ⟨hc, hh⟩ | ⟨hc, hh⟩ | ⟨hc, hh⟩ | ⟨hc, hh⟩ | ⟨hc, hh⟩ <;>
      subst hc <;> subst hh <;> rfl
  · intro hnone hproto
    simp [deviceComponentBody, getFactory, hfind hnone, hproto]
  · intro hnone hproto
    simp [deviceComponentBody, getFactory, hfind hnone, hproto]

/-- C7 witness: the registered class "LaserCAN" dispatches to its handler;
the unregistered class "Bogus" yields the diagnostic fallback; the
unregistered prototype key "toString" takes the inherited, non-fallback
path. -/
theorem dispatch_exact_or_fallback_witness :
    deviceComponentBody ⟨DeviceType.Unknown, none, none, none, none, false⟩
        "LaserCAN" = DeviceBody.handler Handler.LaserCan ∧
    deviceComponentBody ⟨DeviceType.Unknown, none, none, none, none, false⟩
        "Bogus" = DeviceBody.bug "Unknown Device Type: \"Unknown\" (Bogus)" ∧
    deviceComponentBody ⟨DeviceType.Unknown, none, none, none, none, false⟩
        "toString" = DeviceBody.brokenInherited "toString" :=
  ⟨(dispatch_exact_or_fallback ⟨DeviceType.Unknown, none, none, none, none, false⟩
      "LaserCAN").1 Handler.LaserCan (by simp [FACTORIES]),
   (dispatch_exact_or_fallback ⟨DeviceType.Unknown, none, none, none, none, false⟩
      "Bogus").2.1 (by intro h hm; simp [FACTORIES] at hm) (by decide),
   (dispatch_exact_or_fallback ⟨DeviceType.Unknown, none, none, none, none, false⟩
      "toString").2.2 (by intro h hm; simp [FACTORIES] at hm) (by decide)⟩

/-- C8: while no numeric progress has been observed (`progress = null`), the
upload control is present, no progress bar is shown, and the advisory link is
shown exactly when a (nonempty) URL is known; once a nonzero progress value
has been observed only the progress bar is shown and the upload control is
hidden; an observed progress of 0 is falsy under the code's truthiness check,
so the upload control remains shown. -/
theorem firmware_display_policy (v : Int) (u : String) (url : Option String) :
    (renderFirmwareUpdate none url).uploadControl = true ∧
    (renderFirmwareUpdate none url).progressBar = none ∧
    (u ≠ "" → (renderFirmwareUpdate none (some u)).downloadLink = some u) ∧
    (renderFirmwareUpdate none none).downloadLink = none ∧
    (v ≠ 0 → renderFirmwareUpdate (some v) url = ⟨some v, none, false⟩) ∧
    (renderFirmwareUpdate (some 0) url).uploadControl = true := by
  refine ⟨?_, ?_, ?_, ?_, ?_, ?_⟩
  · simp [renderFirmwareUpdate, jsTruthyNum]
  · simp [renderFirmwareUpdate, jsTruthyNum]
  · intro h
    simp [renderFirmwareUpdate, jsTruthyNum, jsTruthyStr, h]
  · simp [renderFirmwareUpdate, jsTruthyNum, jsTruthyStr]
  · intro h
    simp [renderFirmwareUpdate, jsTruthyNum, h]
  · simp [renderFirmwareUpdate, jsTruthyNum]

/-- C8 witness: progress 45 with a known URL shows only the progress bar;
with no progress observed the known URL's link row is shown. -/
theorem firmware_display_policy_witness :
    (45 : Int) ≠ 0 ∧ "http://x" ≠ "" ∧
    renderFirmwareUpdate (some 45) (some "http://x") = ⟨some 45, none, false⟩ ∧
    (renderFirmwareUpdate none (some "http://x")).downloadLink = some "http://x" :=
  ⟨by decide, by decide,
   (firmware_display_policy 45 "http://x" (some "http://x")).2.2.2.2.1 (by decide),
   (firmware_display_policy 45 "http://x" (some "http://x")).2.2.1 (by decide)⟩

/-- C9 counterexample: under a responder that rejects every invocation, the
blink and commit-to-eeprom actions report nothing through the operator
error collaborator (`addError`), refuting the claim that their failures are
reported. -/
theorem utility_failures_not_reported_cex :
    failingRespond Invocation.blink = Except.error "device unreachable" ∧
    (blinkAction failingRespond).errors = [] ∧
    (commitToEepromAction failingRespond).errors = [] :=
  ⟨rfl, rfl, rfl⟩

/-- C9 (amended): when a `blink` or `commit_to_eeprom` invocation fails, the
operation is issued exactly once (not retried) and changes no local state,
but the failure is not reported through the error-reporting collaborator: the
rejection is left unhandled (no `.catch`). -/
theorem utility_failures_unhandled (respond : Responder) (e : String) :
    (respond Invocation.blink = Except.error e →
      blinkAction respond = ⟨[Invocation.blink], [], [e]⟩) ∧
    (respond Invocation.commit_to_eeprom = Except.error e →
      commitToEepromAction respond = ⟨[Invocation.commit_to_eeprom], [], [e]⟩) := by
  constructor <;> intro h <;> simp [blinkAction, commitToEepromAction, h]

/-- C9 witness: the always-failing responder exercises both failure paths. -/
theorem utility_failures_unhandled_witness :
    blinkAction failingRespond = ⟨[Invocation.blink], [], ["device unreachable"]⟩ ∧
    commitToEepromAction failingRespond =
      ⟨[Invocation.commit_to_eeprom], [], ["device unreachable"]⟩ :=
  ⟨(utility_failures_unhandled failingRespond "device unreachable").1 rfl,
   (utility_failures_unhandled failingRespond "device unreachable").2 rfl⟩

/-- C10: for a `DeviceInfo` in bootloader mode (`is_dfu`), the heading shows
the device-type label, the bus id when present and the FIRMWARE UPDATE
marker, and never the device's name; and a present firmware version string is
labeled "Bootloader" rather than "Firmware". -/
theorem dfu_heading_policy (info : DeviceInfo) (h : info.is_dfu = true) :
    renderHeading info =
      { typeLabel := renderDeviceType info.device_type
        busId := info.device_id
        dfuMarker := true
        nameTag := none } ∧
    (info.firmware_version.isSome = true → firmwareLabel info = "Bootloader") := by
  constructor
  · simp [renderHeading, h]
  · intro hv
    simp [firmwareLabel, h, hv]

/-- C10 witness: a named Grapple device in DFU mode with a firmware version. -/
theorem dfu_heading_policy_witness :
    renderHeading ⟨DeviceType.Grapple "LaserCAN", some 5, some "mydev",
        some 57005, some "v2024.1.0", true⟩ = ⟨"LaserCAN", some 5, true, none⟩ ∧
    firmwareLabel ⟨DeviceType.Grapple "LaserCAN", some 5, some "mydev",
        some 57005, some "v2024.1.0", true⟩ = "Bootloader" :=
  ⟨(dfu_heading_policy ⟨DeviceType.Grapple "LaserCAN", some 5, some "mydev",
      some 57005, some "v2024.1.0", true⟩ rfl).1,
   (dfu_heading_policy ⟨DeviceType.Grapple "LaserCAN", some 5, some "mydev",
      some 57005, some "v2024.1.0", true⟩ rfl).2 rfl⟩

end GrappleHook
